import Mathlib

/-!
Shallow embedding of `src/main.cpp` (ESP32 REST API simulation sketch).

The sketch declares fixed constants (WiFi credentials, dweet.io host/port,
thing name), a `setup()` that initialises the serial port, waits 1000 ms and
prints a banner, and a `loop()` that on every call:
  * draws `sensorValue = random(20, 40)` (Arduino semantics:
    `random(lo, hi) = lo + r % (hi - lo)` for an arbitrary nonnegative
    hardware random value `r`),
  * builds `url = "/dweet/for/" + thingName + "?temperature=" + sensorValue`
    (Arduino `String += int` appends the decimal rendering),
  * issues `client.get(url)` on the `HttpClient` bound to `server`/`port`
    (a plain GET: no request body, no authentication header),
  * reads `statusCode = client.responseStatusCode()` (an `int`; the library
    returns negative sentinel codes on connection errors/timeouts) and
    `response = client.responseBody()`,
  * prints `"Sending data to dweet.io..."` (before the GET),
    `"Status Code: "` (no newline) followed by `println(statusCode)`,
    `"Response:"` and `println(response)`,
  * calls `delay(5000)`.
The Arduino runtime calls `loop()` forever after `setup()`.

The embedding represents one run as the list of externally visible actions
(serial writes, delays, HTTP GETs, WiFi connection attempts) performed after
`setup()` plus `N` calls of `loop()`, parametrised by the stream of random
draws `rnd` and by the client's outcome `resp n = (statusCode, body)` for the
`n`-th iteration.  `Action.wifiBegin` models a call of `WiFi.begin`; the
sketch never performs one, which the type records by its absence from every
trace.
-/

namespace EspRestSim

/-- `const char* ssid` from `main.cpp` (declared, never used). -/
def ssid : String := "SIM_WIFI"

/-- `const char* password` from `main.cpp` (declared, never used). -/
def password : String := "SIM_PASS"

/-- `const char* server = "dweet.io"` from `main.cpp`. -/
def server : String := "dweet.io"

/-- `const int port = 80` from `main.cpp`. -/
def port : Nat := 80

/-- `const char* thingName` from `main.cpp`. -/
def thingName : String := "esp32-software-only-demo"

/-- The literal argument of `delay(5000)` at the end of `loop()`. -/
def delayMs : Nat := 5000

/-- `random(20, 40)`: Arduino's two-argument `random(lo, hi)` returns
`lo + random(hi - lo)` and `random(n)` reduces a nonnegative hardware draw
`r` modulo `n`, so the generated value is `20 + r % 20`. -/
def sensorValue (r : Nat) : Nat := 20 + r % 20

/-- The `String url` built in `loop()` by successive `+=`:
`"/dweet/for/" + thingName + "?temperature=" + sensorValue`. -/
def buildUrl (v : Nat) : String :=
  (("/dweet/for/" ++ thingName) ++ "?temperature=") ++ Nat.repr v

/-- One call of `Serial.print` (no newline) or `Serial.println` (ends a line). -/
inductive SerialEvent where
  | print (s : String)
  | println (s : String)
deriving DecidableEq, Repr

/-- An HTTP request as issued by `HttpClient.get`: host and port the client
was constructed with, the request path, and the (absent) authentication and
request body. -/
structure Request where
  host : String
  port : Nat
  path : String
  auth : Option (String × String)
  body : Option String
deriving DecidableEq, Repr

/-- The externally visible actions of the sketch. -/
inductive Action where
  | serialBegin (baud : Nat)
  | delay (ms : Nat)
  | serial (e : SerialEvent)
  | wifiBegin (ssid password : String)
  | httpGet (req : Request)
deriving DecidableEq, Repr

/-- `setup()`: `Serial.begin(9600); delay(1000); Serial.println(banner)`.
It performs no network operation. -/
def setupActions : List Action :=
  [ Action.serialBegin 9600,
    Action.delay 1000,
    Action.serial (SerialEvent.println "ESP32 REST API Simulation Started") ]

/-- One call of `loop()`, given the drawn sensor value `v` and the client's
outcome (`statusCode`, `response`) for this iteration's GET. -/
def loopBodyActions (v : Nat) (statusCode : Int) (response : String) : List Action :=
  [ Action.serial (SerialEvent.println "Sending data to dweet.io..."),
    Action.httpGet ⟨server, port, buildUrl v, none, none⟩,
    Action.serial (SerialEvent.print "Status Code: "),
    Action.serial (SerialEvent.println (toString statusCode)),
    Action.serial (SerialEvent.println "Response:"),
    Action.serial (SerialEvent.println response),
    Action.delay delayMs ]

/-- The actions of iteration `n` of `loop()`. -/
def iterActions (rnd : Nat → Nat) (resp : Nat → Int × String) (n : Nat) : List Action :=
  loopBodyActions (sensorValue (rnd n)) (resp n).1 (resp n).2

/-- The actions of iterations `s, s+1, ..., s+k-1` of `loop()`, in order. -/
def runFrom (rnd : Nat → Nat) (resp : Nat → Int × String) (s : Nat) : Nat → List Action
  | 0 => []
  | k + 1 => iterActions rnd resp s ++ runFrom rnd resp (s + 1) k

/-- The whole observable trace after `setup()` and `N` calls of `loop()`. -/
def runActions (rnd : Nat → Nat) (resp : Nat → Int × String) (N : Nat) : List Action :=
  setupActions ++ runFrom rnd resp 0 N

/-- The HTTP requests issued in a trace, in order. -/
def requestsOf (as : List Action) : List Request :=
  as.filterMap fun a =>
    match a with
    | Action.httpGet r => some r
    | _ => none

/-- The `delay` calls in a trace, in order, by duration. -/
def delaysOf (as : List Action) : List Nat :=
  as.filterMap fun a =>
    match a with
    | Action.delay ms => some ms
    | _ => none

/-- The serial-port writes in a trace, in order. -/
def serialEventsOf (as : List Action) : List SerialEvent :=
  as.filterMap fun a =>
    match a with
    | Action.serial e => some e
    | _ => none

/-- The WiFi connection attempts in a trace, in order. -/
def connectsOf (as : List Action) : List (String × String) :=
  as.filterMap fun a =>
    match a with
    | Action.wifiBegin s p => some (s, p)
    | _ => none

/-- The log lines produced by a sequence of serial writes: `print` accumulates
text into the pending line, `println` completes it. -/
def serialLines (pending : String) : List SerialEvent → List String
  | [] => []
  | SerialEvent.print s :: es => serialLines (pending ++ s) es
  | SerialEvent.println s :: es => (pending ++ s) :: serialLines "" es

/-- The complete log (as lines) of a trace. -/
def logLines (as : List Action) : List String :=
  serialLines "" (serialEventsOf as)

/-- The four log lines one call of `loop()` produces, given the client's
outcome: the `print "Status Code: "` and the `println` of the code form a
single line. -/
def iterationLines (statusCode : Int) (response : String) : List String :=
  [ "Sending data to dweet.io...",
    "Status Code: " ++ toString statusCode,
    "Response:",
    response ]

/-- Start time (in milliseconds) of iteration `n`, counted from the first
iteration, when the `n`-th blocking GET takes `netDur n` milliseconds and all
other statements take no time: each iteration lasts its network call plus the
final `delay(5000)`. -/
def iterationStart (netDur : Nat → Nat) : Nat → Nat
  | 0 => 0
  | n + 1 => iterationStart netDur n + netDur n + delayMs

@[simp]
theorem string_empty_append (s : String) : "" ++ s = s := by
  cases s
  rfl

theorem runFrom_concat (rnd : Nat → Nat) (resp : Nat → Int × String) :
    ∀ (k s : Nat), runFrom rnd resp s (k + 1) = runFrom rnd resp s k ++ iterActions rnd resp (s + k) := by
  intro k
  induction k with
  | zero => intro s; simp [runFrom]
  | succ k ih =>
      intro s
      calc runFrom rnd resp s (k + 2)
          = iterActions rnd resp s ++ runFrom rnd resp (s + 1) (k + 1) := rfl
        _ = iterActions rnd resp s ++ (runFrom rnd resp (s + 1) k ++ iterActions rnd resp (s + 1 + k)) := by
              rw [ih]
        _ = runFrom rnd resp s (k + 1) ++ iterActions rnd resp (s + k + 1) := by
              rw [show s + 1 + k = s + k + 1 from by omega]
              simp [runFrom]

theorem runActions_succ (rnd : Nat → Nat) (resp : Nat → Int × String) (N : Nat) :
    runActions rnd resp (N + 1) = runActions rnd resp N ++ iterActions rnd resp N := by
  simp [runActions, runFrom_concat]

theorem requestsOf_iter (rnd : Nat → Nat) (resp : Nat → Int × String) (n : Nat) :
    requestsOf (iterActions rnd resp n) = [⟨server, port, buildUrl (sensorValue (rnd n)), none, none⟩] := rfl

theorem requests_runFrom (rnd : Nat → Nat) (resp : Nat → Int × String) :
    ∀ (k s : Nat), requestsOf (runFrom rnd resp s k) =
      (List.range' s k).map fun n => (⟨server, port, buildUrl (sensorValue (rnd n)), none, none⟩ : Request) := by
  intro k
  induction k with
  | zero => intro s; rfl
  | succ k ih =>
      intro s
      show requestsOf (iterActions rnd resp s ++ runFrom rnd resp (s + 1) k) = _
      rw [requestsOf, List.filterMap_append, ← requestsOf, ← requestsOf, requestsOf_iter, ih]
      rfl

theorem requests_run (rnd : Nat → Nat) (resp : Nat → Int × String) (N : Nat) :
    requestsOf (runActions rnd resp N) =
      (List.range N).map fun n => (⟨server, port, buildUrl (sensorValue (rnd n)), none, none⟩ : Request) := by
  rw [runActions, requestsOf, List.filterMap_append, ← requestsOf, ← requestsOf,
    requests_runFrom, List.range_eq_range' N]
  rfl

theorem delaysOf_iter (rnd : Nat → Nat) (resp : Nat → Int × String) (n : Nat) :
    delaysOf (iterActions rnd resp n) = [delayMs] := rfl

theorem delays_runFrom (rnd : Nat → Nat) (resp : Nat → Int × String) :
    ∀ (k s : Nat), delaysOf (runFrom rnd resp s k) = List.replicate k delayMs := by
  intro k
  induction k with
  | zero => intro s; rfl
  | succ k ih =>
      intro s
      show delaysOf (iterActions rnd resp s ++ runFrom rnd resp (s + 1) k) = _
      rw [delaysOf, List.filterMap_append, ← delaysOf, ← delaysOf, delaysOf_iter, ih]
      rfl

theorem delays_run (rnd : Nat → Nat) (resp : Nat → Int × String) (N : Nat) :
    delaysOf (runActions rnd resp N) = 1000 :: List.replicate N delayMs := by
  rw [runActions, delaysOf, List.filterMap_append, ← delaysOf, ← delaysOf, delays_runFrom]
  rfl

theorem connects_runFrom (rnd : Nat → Nat) (resp : Nat → Int × String) :
    ∀ (k s : Nat), connectsOf (runFrom rnd resp s k) = [] := by
  intro k
  induction k with
  | zero => intro s; rfl
  | succ k ih =>
      intro s
      show connectsOf (iterActions rnd resp s ++ runFrom rnd resp (s + 1) k) = _
      rw [connectsOf, List.filterMap_append, ← connectsOf, ← connectsOf, ih]
      rfl

theorem connects_run (rnd : Nat → Nat) (resp : Nat → Int × String) (N : Nat) :
    connectsOf (runActions rnd resp N) = [] := by
  rw [runActions, connectsOf, List.filterMap_append, ← connectsOf, ← connectsOf,
    connects_runFrom]
  rfl

theorem serialEventsOf_iter (rnd : Nat → Nat) (resp : Nat → Int × String) (n : Nat) :
    serialEventsOf (iterActions rnd resp n) =
      [ SerialEvent.println "Sending data to dweet.io...",
        SerialEvent.print "Status Code: ",
        SerialEvent.println (toString (resp n).1),
        SerialEvent.println "Response:",
        SerialEvent.println (resp n).2 ] := rfl

theorem serialLines_iterEvents (statusCode : Int) (response : String) (rest : List SerialEvent) :
    serialLines ""
      ( SerialEvent.println "Sending data to dweet.io..." ::
        SerialEvent.print "Status Code: " ::
        SerialEvent.println (toString statusCode) ::
        SerialEvent.println "Response:" ::
        SerialEvent.println response :: rest ) =
      iterationLines statusCode response ++ serialLines "" rest := by
  simp [serialLines, iterationLines]

theorem lines_runFrom (rnd : Nat → Nat) (resp : Nat → Int × String) :
    ∀ (k s : Nat), serialLines "" (serialEventsOf (runFrom rnd resp s k)) =
      (List.range' s k).flatMap fun n => iterationLines (resp n).1 (resp n).2 := by
  intro k
  induction k with
  | zero => intro s; rfl
  | succ k ih =>
      intro s
      show serialLines "" (serialEventsOf (iterActions rnd resp s ++ runFrom rnd resp (s + 1) k)) = _
      rw [serialEventsOf, List.filterMap_append, ← serialEventsOf, ← serialEventsOf,
        serialEventsOf_iter]
      rw [show (List.range' s (k + 1)).flatMap (fun n => iterationLines (resp n).1 (resp n).2) =
        iterationLines (resp s).1 (resp s).2 ++
          (List.range' (s + 1) k).flatMap (fun n => iterationLines (resp n).1 (resp n).2) from rfl]
      rw [← ih (s + 1)]
      exact serialLines_iterEvents (resp s).1 (resp s).2 _

theorem lines_run (rnd : Nat → Nat) (resp : Nat → Int × String) (N : Nat) :
    logLines (runActions rnd resp N) =
      "ESP32 REST API Simulation Started" ::
        (List.range N).flatMap fun n => iterationLines (resp n).1 (resp n).2 := by
  rw [logLines, runActions, serialEventsOf, List.filterMap_append, ← serialEventsOf,
    ← serialEventsOf, List.range_eq_range' N, ← lines_runFrom rnd resp N 0]
  show serialLines "" (SerialEvent.println "ESP32 REST API Simulation Started" ::
    serialEventsOf (runFrom rnd resp 0 N)) = _
  simp [serialLines]

theorem sensorValue_eq (r : Nat) : sensorValue r = 20 + r % 20 := rfl

theorem repr_clean_of_lt (k : Nat) (h : k < 20) :
    (Nat.repr (20 + k)).front ≠ '0' ∧
      ((Nat.repr (20 + k)).data.all fun c => c.isDigit) = true := by
  interval_cases k <;> exact ⟨by decide, by decide⟩

theorem repr_sensorValue_clean (r : Nat) :
    (Nat.repr (sensorValue r)).front ≠ '0' ∧
      ((Nat.repr (sensorValue r)).data.all fun c => c.isDigit) = true :=
  repr_clean_of_lt (r % 20) (Nat.mod_lt r (by norm_num))

/-- C1: in every run, the path passed to the HTTP client's GET at iteration
`n` is exactly `"/dweet/for/esp32-software-only-demo?temperature="` followed
by the decimal rendering of that iteration's generated value; the rendering
consists solely of decimal digits (hence carries no sign) and its first
character is not `'0'` (hence no leading zeros). -/
theorem request_path_literal_and_clean (rnd : Nat → Nat) (resp : Nat → Int × String) (N : Nat) :
    (requestsOf (runActions rnd resp N)).map Request.path =
      (List.range N).map (fun n =>
        "/dweet/for/esp32-software-only-demo?temperature=" ++ Nat.repr (sensorValue (rnd n))) ∧
    ∀ n : Nat, (Nat.repr (sensorValue (rnd n))).front ≠ '0' ∧
      ((Nat.repr (sensorValue (rnd n))).data.all fun c => c.isDigit) = true := by
  constructor
  · rw [requests_run, List.map_map]
    rfl
  · intro n
    exact repr_sensorValue_clean (rnd n)

/-- C2: the generated sensor value of every iteration satisfies
`20 ≤ v < 40`, whatever underlying random draw the iteration receives. -/
theorem sensorValue_in_range (rnd : Nat → Nat) (n : Nat) :
    20 ≤ sensorValue (rnd n) ∧ sensorValue (rnd n) < 40 := by
  rw [sensorValue_eq]
  omega

/-- C3: whatever outcome the client returns for iteration `N` — `resp` ranges
over all outcomes, in particular negative sentinel codes for connection
errors or timeouts and error status codes — the iteration completes: the
whole loop body runs and extends the trace, its log lines are the returned
status code and body as-is, and its final action is the `delay`; nothing
aborts the run before the next iteration. -/
theorem iteration_completes_on_failure (rnd : Nat → Nat) (resp : Nat → Int × String) (N : Nat) :
    runActions rnd resp (N + 1) = runActions rnd resp N ++ iterActions rnd resp N ∧
    logLines (runActions rnd resp (N + 1)) =
      logLines (runActions rnd resp N) ++ iterationLines (resp N).1 (resp N).2 ∧
    (iterActions rnd resp N).getLast? = some (Action.delay delayMs) := by
  refine ⟨runActions_succ rnd resp N, ?_, rfl⟩
  rw [lines_run, lines_run, List.range_succ]
  simp

/-- C4 (counterexample): with the client stubbed to status 200 and body
`{"ok":true}`, no log line of the iteration is the bare string `"200"`: the
status code is written after the newline-free `print "Status Code: "`, so the
line holding it is `"Status Code: 200"`. -/
theorem no_bare_status_line :
    "200" ∉ serialLines "" (serialEventsOf (loopBodyActions (sensorValue 0) 200 "\x7b\"ok\":true\x7d")) := by
  decide

/-- C4 (amended): with the client stubbed to status 200 and body
`{"ok":true}`, a single iteration writes to the log exactly the sending
message, the line `"Status Code: 200"`, the label `"Response:"`, and the
body `{"ok":true}`, and nothing else. -/
theorem stubbed_iteration_log (v : Nat) :
    serialLines "" (serialEventsOf (loopBodyActions v 200 "\x7b\"ok\":true\x7d")) =
      [ "Sending data to dweet.io...",
        "Status Code: 200",
        "Response:",
        "\x7b\"ok\":true\x7d" ] := rfl

/-- C5: the complete log of any run is the start banner written once,
followed, for every iteration in order, by the sending message, the line
carrying the decimal status code returned by the client (after the
`"Status Code: "` label written without a newline), the `"Response:"` label,
and the raw response body text. -/
theorem log_structure (rnd : Nat → Nat) (resp : Nat → Int × String) (N : Nat) :
    logLines (runActions rnd resp N) =
      "ESP32 REST API Simulation Started" ::
        (List.range N).flatMap (fun n =>
          [ "Sending data to dweet.io...",
            "Status Code: " ++ toString (resp n).1,
            "Response:",
            (resp n).2 ]) := by
  rw [lines_run]
  rfl

/-- C6: the loop has no termination condition: after any number `N` of
completed iterations the trace holds exactly `N` GET requests, and the next
call of `loop()` strictly extends the trace — another iteration is always
pending. -/
theorem loop_never_terminates (rnd : Nat → Nat) (resp : Nat → Int × String) (N : Nat) :
    (requestsOf (runActions rnd resp N)).length = N ∧
    (runActions rnd resp N).length < (runActions rnd resp (N + 1)).length := by
  constructor
  · rw [requests_run, List.length_map, List.length_range]
  · rw [runActions_succ, List.length_append]
    have h : (iterActions rnd resp N).length = 7 := rfl
    omega

/-- C7 (counterexample): the startup logic performs no network connection:
no `WiFi.begin` action occurs among the setup actions. -/
theorem setup_no_connect_cex :
    (¬ ∃ s p, Action.wifiBegin s p ∈ setupActions) ∧ connectsOf setupActions = [] := by
  constructor
  · rintro ⟨s, p, hmem⟩
    simp [setupActions] at hmem
  · rfl

/-- C7 (amended): startup consists exactly of initialising the serial port at
9600 baud, a 1000 ms delay and the banner print; the WiFi credentials are
declared but never used, and no run ever performs a network connection — each
GET is issued without any connection having been established. -/
theorem startup_without_network (rnd : Nat → Nat) (resp : Nat → Int × String) (N : Nat) :
    setupActions =
      [ Action.serialBegin 9600,
        Action.delay 1000,
        Action.serial (SerialEvent.println "ESP32 REST API Simulation Started") ] ∧
    connectsOf (runActions rnd resp N) = [] ∧
    ssid = "SIM_WIFI" ∧ password = "SIM_PASS" :=
  ⟨rfl, connects_run rnd resp N, rfl, rfl⟩

/-- C8: every HTTP request of every run is a GET against host `"dweet.io"`
on port 80 with no authentication and no request body, and the device id,
host, port and delay are the fixed constants of the source (no configuration
inputs exist in the model: the trace depends only on `rnd` and `resp`). -/
theorem fixed_endpoint_and_constants (rnd : Nat → Nat) (resp : Nat → Int × String) (N : Nat) :
    requestsOf (runActions rnd resp N) =
      (List.range N).map (fun n =>
        (⟨"dweet.io", 80, buildUrl (sensorValue (rnd n)), none, none⟩ : Request)) ∧
    server = "dweet.io" ∧ port = 80 ∧ thingName = "esp32-software-only-demo" ∧ delayMs = 5000 := by
  refine ⟨?_, rfl, rfl, rfl, rfl⟩
  rw [requests_run]
  rfl

/-- C9: every call of `loop()` performs exactly one `delay`, of
`delayMs = 5000` milliseconds, as its final action after the logging; hence,
counting the blocking network call of iteration `n` as `netDur n`
milliseconds, the start of iteration `n + 1` comes at least 5000 ms plus the
network-call duration after the start of iteration `n`. -/
theorem iteration_spacing (netDur : Nat → Nat) (n : Nat) :
    delayMs = 5000 ∧
    (∀ (v : Nat) (st : Int) (b : String), delaysOf (loopBodyActions v st b) = [delayMs]) ∧
    (∀ (v : Nat) (st : Int) (b : String),
      (loopBodyActions v st b).getLast? = some (Action.delay delayMs)) ∧
    iterationStart netDur n + 5000 + netDur n ≤ iterationStart netDur (n + 1) := by
  refine ⟨rfl, fun v st b => rfl, fun v st b => rfl, ?_⟩
  simp only [iterationStart, delayMs]
  omega

/-- C10: the status code and body returned by the client flow only to the
log: two runs that draw the same random values but receive arbitrarily
different client outcomes issue identical request traces and take identical
delay traces. -/
theorem responses_do_not_influence (rnd : Nat → Nat) (respA respB : Nat → Int × String) (N : Nat) :
    requestsOf (runActions rnd respA N) = requestsOf (runActions rnd respB N) ∧
    delaysOf (runActions rnd respA N) = delaysOf (runActions rnd respB N) := by
  rw [requests_run rnd respA, requests_run rnd respB, delays_run rnd respA, delays_run rnd respB]
  exact ⟨rfl, rfl⟩

end EspRestSim
